import Mathlib

/-!
Verification development for the riigikogu-digital-twin service.

The definitions below are a shallow embedding, in Lean 4, of the pure
computational core of the Python service:

* `app/sync/riigikogu.py` — decision normalization, party-code
  extraction, slug generation, per-year checkpointed sync, MP statistics;
* `app/prediction/features.py` — party cohesion;
* `app/prediction/baseline.py` — the party-line baseline predictor;
* `app/prediction/model.py` — training-data construction, model
  selection, the promotion gate, and the model prediction path.

Python `dict` documents become Lean structures with `Option` fields where
the code uses `.get` with a default; database queries become explicit
list-valued parameters; float arithmetic is embedded as exact rational
arithmetic (`ℚ`); Python `round` (banker's rounding) is embedded as
`pyRound`.
-/

set_option autoImplicit false

/-! ### Python string primitives used by the sync module -/

/-- Lowercase mapping for the characters that occur in this code base:
ASCII letters plus the Estonian letters kept by `make_slug`
(models Python `str.lower` on the relevant alphabet). -/
def pyLowerChar (c : Char) : Char :=
  if 'A' ≤ c ∧ c ≤ 'Z' then Char.ofNat (c.toNat + 32)
  else if c = 'Ä' then 'ä'
  else if c = 'Ö' then 'ö'
  else if c = 'Ü' then 'ü'
  else if c = 'Õ' then 'õ'
  else if c = 'Š' then 'š'
  else if c = 'Ž' then 'ž'
  else c

/-- Uppercase mapping (models Python `str.upper` on the relevant alphabet). -/
def pyUpperChar (c : Char) : Char :=
  if 'a' ≤ c ∧ c ≤ 'z' then Char.ofNat (c.toNat - 32)
  else if c = 'ä' then 'Ä'
  else if c = 'ö' then 'Ö'
  else if c = 'ü' then 'Ü'
  else if c = 'õ' then 'Õ'
  else if c = 'š' then 'Š'
  else if c = 'ž' then 'Ž'
  else c

def pyLower (s : String) : String := String.mk (s.toList.map pyLowerChar)

def pyUpper (s : String) : String := String.mk (s.toList.map pyUpperChar)

/-- Python `str.strip()` whitespace characters. -/
def isPySpace (c : Char) : Bool :=
  c = ' ' ∨ c = '\t' ∨ c = '\n' ∨ c = '\r' ∨ c = '\x0b' ∨ c = '\x0c'

/-- Drop characters satisfying `p` from both ends of a list. -/
def stripChars (p : Char → Bool) (l : List Char) : List Char :=
  ((l.dropWhile p).reverse.dropWhile p).reverse

/-- Python `s.strip()`. -/
def pyStrip (s : String) : String := String.mk (stripChars isPySpace s.toList)

/-- Whether `needle` is a prefix of `haystack` (over char lists). -/
def startsWithL : List Char → List Char → Bool
  | [], _ => true
  | _ :: _, [] => false
  | a :: as, b :: bs => a = b && startsWithL as bs

/-- Whether `needle` occurs contiguously inside `haystack`
(models the Python `in` operator on strings). -/
def hasSubstrL (needle : List Char) : List Char → Bool
  | [] => needle.isEmpty
  | c :: rest => startsWithL needle (c :: rest) || hasSubstrL needle rest

def hasSubstr (needle haystack : String) : Bool :=
  hasSubstrL needle.toList haystack.toList

/-- Lexicographic order on code points: the order MongoDB applies to the
`votingTime` strings (they are ASCII ISO timestamps, where code-point order
and UTF-8 byte order coincide). -/
def strLtL : List Char → List Char → Bool
  | [], [] => false
  | [], _ :: _ => true
  | _ :: _, [] => false
  | a :: as, b :: bs => if a < b then true else if b < a then false else strLtL as bs

def pyStrLt (a b : String) : Bool := strLtL a.toList b.toList

def pyStrLe (a b : String) : Bool := pyStrLt a b || (a == b)

/-! ### Python `round` (banker's rounding) over exact rationals -/

/-- Round a rational to the nearest integer, halves to even
(Python 3 `round` semantics). -/
def roundHalfEven (q : ℚ) : ℤ :=
  if q - ⌊q⌋ < 1/2 then ⌊q⌋
  else if 1/2 < q - ⌊q⌋ then ⌊q⌋ + 1
  else if ⌊q⌋ % 2 = 0 then ⌊q⌋ else ⌊q⌋ + 1

/-- Python `round(q, digits)` over exact rationals. -/
def pyRound (q : ℚ) (digits : ℕ) : ℚ :=
  (roundHalfEven (q * (10 : ℚ) ^ digits) : ℚ) / (10 : ℚ) ^ digits

/-! ### Decision normalization (`app/sync/riigikogu.py`)

`DECISION_MAP` and `normalize_decision` are translated verbatim.  The
`VoteDecision` enum of `app/models.py` is a `str` enum whose members carry
the values FOR / AGAINST / ABSTAIN / ABSENT, so decisions are embedded as
those strings. -/

def DECISION_MAP : List (String × String) :=
  [ ("POOLT", "FOR"),
    ("FOR", "FOR"),
    ("P", "FOR"),
    ("KOHAL", "FOR"),
    ("VASTU", "AGAINST"),
    ("AGAINST", "AGAINST"),
    ("V", "AGAINST"),
    ("ERAPOOLETU", "ABSTAIN"),
    ("ABSTAIN", "ABSTAIN"),
    ("E", "ABSTAIN"),
    ("PUUDUB", "ABSENT"),
    ("PUUDUS", "ABSENT"),
    ("ABSENT", "ABSENT"),
    ("-", "ABSENT") ]

/-- The closed enumeration of normalized decisions
(the values of the `VoteDecision` enum). -/
def VOTE_DECISIONS : List String := ["FOR", "AGAINST", "ABSTAIN", "ABSENT"]

/-- Raw input to `normalize_decision`: `None`, a plain string, or a
structured value carrying `code` / `value` fields. -/
inductive RawDecision where
  | null : RawDecision
  | str (s : String) : RawDecision
  | dict (code : Option String) (value : Option String) : RawDecision

/-- Python truthiness filter on an optional string: `None` and `""` are falsy. -/
def truthyStr (o : Option String) : Option String :=
  match o with
  | none => none
  | some s => if s = "" then none else some s

/-- Models `raw.get("code") or raw.get("value") or ""`. -/
def dictDecisionString (code value : Option String) : String :=
  match truthyStr code with
  | some s => s
  | none =>
    match truthyStr value with
    | some s => s
    | none => ""

/-- The string branch of `normalize_decision`:
`DECISION_MAP.get(str(raw).strip().upper(), VoteDecision.ABSENT)`. -/
def normalize_decision_str (s : String) : String :=
  (List.lookup (pyUpper (pyStrip s)) DECISION_MAP).getD "ABSENT"

/-- Translation of `normalize_decision` from `app/sync/riigikogu.py`. -/
def normalize_decision (raw : RawDecision) : String :=
  match raw with
  | .null => "ABSENT"
  | .dict c v => normalize_decision_str (dictDecisionString c v)
  | .str s => normalize_decision_str s

/-! ### Party code extraction (`app/sync/riigikogu.py`) -/

def PARTY_CODE_PATTERNS : List (String × String) :=
  [ ("Konservatiiv", "EKRE"),
    ("EKRE", "EKRE"),
    ("Isamaa", "I"),
    ("Reform", "RE"),
    ("Sotsiaaldemokraat", "SDE"),
    ("Kesk", "K"),
    ("200", "E200"),
    ("Paremp", "PAREMPOOLSED"),
    ("mittekuuluv", "FR") ]

/-- The fixed valid party codes (a Python `set`, embedded as a list). -/
def VALID_PARTY_CODES : List String :=
  ["EKRE", "I", "RE", "SDE", "K", "E200", "PAREMPOOLSED", "FR"]

/-- Translation of `extract_party_code` from `app/sync/riigikogu.py`.
`none` models Python `None`; `if not faction_name` catches `None` and `""`. -/
def extract_party_code (faction_name : Option String) : String :=
  match faction_name with
  | none => "FR"
  | some s =>
    if s = "" then "FR"
    else
      let stripped := pyStrip s
      if stripped ∈ VALID_PARTY_CODES then stripped
      else
        match PARTY_CODE_PATTERNS.find? (fun p => hasSubstr (pyLower p.1) (pyLower s)) with
        | some p => p.2
        | none => "FR"

/-! ### Slug generation (`app/sync/riigikogu.py`) -/

/-- The character class of `re.sub(r"[^a-z0-9äöüõšž-]", "", slug)`. -/
def slugAllowedChar (c : Char) : Bool :=
  ('a' ≤ c && c ≤ 'z') || ('0' ≤ c && c ≤ '9') ||
    c = 'ä' || c = 'ö' || c = 'ü' || c = 'õ' || c = 'š' || c = 'ž' || c = '-'

/-- Models `re.sub(r"-+", "-", slug)`: collapse runs of hyphens. -/
def collapseHyphens : List Char → List Char
  | [] => []
  | [c] => [c]
  | a :: b :: rest =>
    if a = '-' && b = '-' then collapseHyphens (b :: rest)
    else a :: collapseHyphens (b :: rest)

/-- Translation of `make_slug` from `app/sync/riigikogu.py`. -/
def make_slug (first_name last_name : String) : String :=
  let slug := pyLower (first_name ++ "-" ++ last_name)
  let filtered := slug.toList.filter slugAllowedChar
  String.mk (stripChars (fun c => c = '-') (collapseHyphens filtered))

example : normalize_decision (RawDecision.str "poolt ") = "FOR" := by decide
example : normalize_decision (RawDecision.dict (some "") (some "vastu")) = "AGAINST" := by decide
example : extract_party_code (some "Eesti Reformierakonna fraktsioon") = "RE" := by decide
example : make_slug "Helle-Moonika" "Helme" = "helle-moonika-helme" := by decide

/-! ### Theorems for decision normalization, party resolution and slugs -/

lemma lookup_getD_mem_of (l : List (String × String)) (k d : String)
    (h : ∀ p ∈ l, p.2 ∈ VOTE_DECISIONS) (hd : d ∈ VOTE_DECISIONS) :
    (List.lookup k l).getD d ∈ VOTE_DECISIONS := by
  induction l with
  | nil => simpa using hd
  | cons p t ih =>
    obtain ⟨a, b⟩ := p
    simp only [List.lookup]
    split
    · simpa using h ⟨a, b⟩ (List.mem_cons_self _ _)
    · exact ih fun q hq => h q (List.mem_cons_of_mem _ hq)

lemma normalize_decision_str_mem (s : String) :
    normalize_decision_str s ∈ VOTE_DECISIONS :=
  lookup_getD_mem_of DECISION_MAP (pyUpper (pyStrip s)) "ABSENT" (by decide) (by decide)

/-- C6: `normalize_decision` is total (always one of FOR / AGAINST / ABSTAIN /
ABSENT) and idempotent (re-normalizing any result is a no-op); `None` maps to
ABSENT, and every string that misses the decision table maps to ABSENT. -/
theorem normalize_decision_total_idempotent :
    (∀ raw, normalize_decision raw ∈ VOTE_DECISIONS)
  ∧ (∀ raw, normalize_decision (RawDecision.str (normalize_decision raw)) = normalize_decision raw)
  ∧ normalize_decision RawDecision.null = "ABSENT"
  ∧ (∀ s, List.lookup (pyUpper (pyStrip s)) DECISION_MAP = none →
      normalize_decision (RawDecision.str s) = "ABSENT") := by
  have htot : ∀ raw, normalize_decision raw ∈ VOTE_DECISIONS := by
    intro raw
    cases raw with
    | null => decide
    | str s => exact normalize_decision_str_mem s
    | dict c v => exact normalize_decision_str_mem _
  refine ⟨htot, ?_, rfl, ?_⟩
  · intro raw
    have h := htot raw
    simp only [VOTE_DECISIONS, List.mem_cons, List.not_mem_nil, or_false] at h
    rcases h with h | h | h | h <;> rw [h] <;> decide
  · intro s h
    simp [normalize_decision, normalize_decision_str, h]

/-- Witness for C6: a concrete unrecognized string normalizes to ABSENT. -/
theorem normalize_decision_total_idempotent_witness :
    normalize_decision (RawDecision.str "midagi muud") = "ABSENT" :=
  normalize_decision_total_idempotent.2.2.2 "midagi muud" (by decide)

/-- C7: `extract_party_code` returns every already-valid code unchanged,
maps `None` and the empty label to the non-affiliated code FR, and maps any
label that is not a valid code and matches no substring pattern to FR. -/
theorem extract_party_code_idempotent_default :
    (∀ c ∈ VALID_PARTY_CODES, extract_party_code (some c) = c)
  ∧ extract_party_code none = "FR"
  ∧ extract_party_code (some "") = "FR"
  ∧ (∀ s, pyStrip s ∉ VALID_PARTY_CODES →
      (∀ p ∈ PARTY_CODE_PATTERNS, hasSubstr (pyLower p.1) (pyLower s) = false) →
      extract_party_code (some s) = "FR") := by
  refine ⟨by decide, rfl, by decide, ?_⟩
  intro s h1 h2
  by_cases hs : s = ""
  · simp [extract_party_code, hs]
  · have hfind : PARTY_CODE_PATTERNS.find?
        (fun p => hasSubstr (pyLower p.1) (pyLower s)) = none := by
      apply List.find?_eq_none.mpr
      intro p hp
      simp [h2 p hp]
    simp only [extract_party_code, if_neg hs, if_neg h1, hfind]

/-- Witness for C7: a valid code round-trips and an unmatched label maps to FR. -/
theorem extract_party_code_idempotent_default_witness :
    extract_party_code (some "EKRE") = "EKRE" ∧
      extract_party_code (some "Roheliste fraktsioon") = "FR" :=
  ⟨extract_party_code_idempotent_default.1 "EKRE" (by decide),
   extract_party_code_idempotent_default.2.2.2 "Roheliste fraktsioon" (by decide) (by decide)⟩

/-- C4: evaluating `make_slug` on the repository's own regression inputs.
The character class `[^a-z0-9äöüõšž-]` keeps the Estonian letters, so
`make_slug "Jüri" "Ratas"` is `"jüri-ratas"`, not the `"juri-ratas"` that the
repository's tests (`test_sync.py`, `test_invariants.py`) and the spec expect;
the hyphenated name behaves as specified. -/
theorem make_slug_keeps_diacritics :
    make_slug "Jüri" "Ratas" = "jüri-ratas" ∧
      "jüri-ratas" ≠ "juri-ratas" ∧
      make_slug "Helle-Moonika" "Helme" = "helle-moonika-helme" := by decide

/-! ### Data model: voter records and voting documents

A `Voting` document embeds voter records with the faction label captured at
vote time and the normalized decision (stored as its string value). -/

structure Voter where
  memberUuid : String
  faction : Option String
  decision : String
deriving DecidableEq

structure Voting where
  uuid : String
  votingTime : String
  voters : List Voter
deriving DecidableEq

/-! ### Python `Counter(...).most_common(1)[0][0]`

`Counter.most_common` sorts items by count descending with a stable sort over
insertion order, so the selected element is the first-occurring element of
maximal multiplicity. -/

def countOf (l : List String) (x : String) : ℕ := (l.filter fun y => y == x).length

/-- Deduplicate keeping the first occurrence of each element
(the insertion order of a Python `Counter`). -/
def firstOccs : List String → List String
  | [] => []
  | x :: xs => x :: (firstOccs xs).filter fun y => y != x

/-- Compare a candidate against the best-so-far; the earlier candidate wins ties. -/
def pickBetter (f : String → ℕ) (c : String) : Option String → Option String
  | none => some c
  | some b => if f c < f b then some b else some c

/-- First element of maximal `f`-value (later elements win only strictly). -/
def argmaxFirst (f : String → ℕ) : List String → Option String
  | [] => none
  | c :: cs => pickBetter f c (argmaxFirst f cs)

/-- Models `Counter(l).most_common(1)[0][0]`. -/
def mostCommon (l : List String) : Option String :=
  argmaxFirst (countOf l) (firstOccs l)

example : mostCommon ["FOR", "AGAINST"] = some "FOR" := by decide
example : mostCommon ["AGAINST", "FOR", "FOR"] = some "FOR" := by decide

lemma pickBetter_isSome (f : String → ℕ) (c : String) (o : Option String) :
    (pickBetter f c o).isSome := by
  cases o with
  | none => rfl
  | some b =>
    show (if f c < f b then some b else some c).isSome
    by_cases h : f c < f b
    · rw [if_pos h]; rfl
    · rw [if_neg h]; rfl

lemma pickBetter_eq_some (f : String → ℕ) (c : String) (o : Option String) (b : String)
    (h : pickBetter f c o = some b) : b = c ∨ o = some b := by
  cases o with
  | none =>
    left
    have : some c = some b := h
    exact (Option.some.inj this).symm
  | some m =>
    have h2 : (if f c < f m then some m else some c) = some b := h
    by_cases hlt : f c < f m
    · rw [if_pos hlt] at h2
      right
      rw [Option.some.inj h2]
    · rw [if_neg hlt] at h2
      left
      exact (Option.some.inj h2).symm

lemma argmaxFirst_cons_isSome (f : String → ℕ) (c : String) (cs : List String) :
    (argmaxFirst f (c :: cs)).isSome :=
  pickBetter_isSome f c (argmaxFirst f cs)

lemma argmaxFirst_mem (f : String → ℕ) :
    ∀ (l : List String) (b : String), argmaxFirst f l = some b → b ∈ l := by
  intro l
  induction l with
  | nil => intro b h; cases h
  | cons c cs ih =>
    intro b h
    rcases pickBetter_eq_some f c (argmaxFirst f cs) b h with hb | hb
    · exact hb ▸ List.mem_cons_self _ _
    · exact List.mem_cons_of_mem _ (ih b hb)

lemma firstOccs_subset : ∀ (l : List String) (x : String), x ∈ firstOccs l → x ∈ l := by
  intro l
  induction l with
  | nil => intro x h; cases h
  | cons c cs ih =>
    intro x h
    simp only [firstOccs, List.mem_cons] at h
    rcases h with h | h
    · exact h ▸ List.mem_cons_self _ _
    · exact List.mem_cons_of_mem _ (ih x (List.mem_of_mem_filter h))

lemma mostCommon_isSome (l : List String) (h : l ≠ []) : (mostCommon l).isSome := by
  cases l with
  | nil => cases h rfl
  | cons c cs => exact argmaxFirst_cons_isSome _ _ _

lemma mostCommon_mem (l : List String) (b : String) (h : mostCommon l = some b) : b ∈ l :=
  firstOccs_subset l b (argmaxFirst_mem _ _ b h)

/-! ### Party cohesion (`app/prediction/features.py`, `_compute_party_cohesion`) -/

/-- The decisions of the party's non-absent voters on a voting, in voter
order: the list built by the loop of `_compute_party_cohesion`. -/
def party_decisions_of (voting : Voting) (party_code : String) : List String :=
  (voting.voters.filter fun v =>
      (extract_party_code v.faction == party_code) && (v.decision != "ABSENT")).map
    (fun v => v.decision)

/-- The arithmetic tail of `_compute_party_cohesion`, as a function of the
collected decision list. -/
def cohesion_of_decisions (pd : List String) : ℚ :=
  if pd = [] then 1
  else (countOf pd ((mostCommon pd).getD "") : ℚ) / pd.length

/-- Translation of `_compute_party_cohesion` from `app/prediction/features.py`. -/
def compute_party_cohesion (voting : Voting) (party_code : String) : ℚ :=
  cohesion_of_decisions (party_decisions_of voting party_code)

def cohesionSampleVoting : Voting :=
  ⟨"v3", "2025-01-01",
    [⟨"m1", some "RE", "FOR"⟩, ⟨"m2", some "RE", "FOR"⟩, ⟨"m3", some "RE", "AGAINST"⟩]⟩

lemma party_decisions_append_irrelevant (voting : Voting) (party : String) (w : Voter)
    (hw : w.decision = "ABSENT" ∨ extract_party_code w.faction ≠ party) :
    party_decisions_of { voting with voters := voting.voters ++ [w] } party =
      party_decisions_of voting party := by
  rcases hw with hw | hw
  · simp [party_decisions_of, List.filter_append, hw]
  · simp [party_decisions_of, List.filter_append, beq_iff_eq, hw]

/-- C9: party cohesion counts only the party's non-absent voters (appending an
absent or other-party voter leaves it unchanged), is 1 on a unanimous
non-empty party, is 1 by definition when the party has no non-absent voter,
and on the decisions [FOR, FOR, AGAINST] it is 2/3 with majority FOR. -/
theorem party_cohesion_postconditions :
    (∀ (voting : Voting) (party : String) (w : Voter),
      w.decision = "ABSENT" ∨ extract_party_code w.faction ≠ party →
      compute_party_cohesion { voting with voters := voting.voters ++ [w] } party =
        compute_party_cohesion voting party)
  ∧ (∀ (voting : Voting) (party d : String),
      party_decisions_of voting party ≠ [] →
      (∀ x ∈ party_decisions_of voting party, x = d) →
      compute_party_cohesion voting party = 1)
  ∧ (∀ (voting : Voting) (party : String),
      party_decisions_of voting party = [] →
      compute_party_cohesion voting party = 1)
  ∧ (compute_party_cohesion cohesionSampleVoting "RE" = 2/3
      ∧ mostCommon (party_decisions_of cohesionSampleVoting "RE") = some "FOR") := by
  refine ⟨?_, ?_, ?_, ?_, by decide⟩
  · intro voting party w hw
    unfold compute_party_cohesion
    rw [party_decisions_append_irrelevant voting party w hw]
  · intro voting party d hne hall
    unfold compute_party_cohesion cohesion_of_decisions
    rw [if_neg hne]
    obtain ⟨m, hm⟩ := Option.isSome_iff_exists.mp (mostCommon_isSome _ hne)
    have hmem := mostCommon_mem _ m hm
    have hmd : m = d := hall m hmem
    rw [hm]
    have hcount : countOf (party_decisions_of voting party) m =
        (party_decisions_of voting party).length := by
      unfold countOf
      congr 1
      apply List.filter_eq_self.mpr
      intro a ha
      have : a = d := hall a ha
      simp [this, hmd]
    simp only [Option.getD_some, hcount]
    have hpos : 0 < (party_decisions_of voting party).length := List.length_pos.mpr hne
    have hlen : ((party_decisions_of voting party).length : ℚ) ≠ 0 := by
      exact_mod_cast Nat.pos_iff_ne_zero.mp hpos
    exact div_self hlen
  · intro voting party h
    unfold compute_party_cohesion cohesion_of_decisions
    rw [if_pos h]
  · have h1 : party_decisions_of cohesionSampleVoting "RE" = ["FOR", "FOR", "AGAINST"] := by
      decide
    have h2 : countOf ["FOR", "FOR", "AGAINST"]
        ((mostCommon ["FOR", "FOR", "AGAINST"]).getD "") = 2 := by decide
    unfold compute_party_cohesion cohesion_of_decisions
    rw [h1, if_neg (by decide), h2]
    norm_num

def cohesionBaseVoting : Voting := ⟨"v1", "2025-01-01", [⟨"m1", some "RE", "FOR"⟩]⟩

/-! ### MP documents and the baseline predictor (`app/prediction/baseline.py`)

An `mps` document carries a denormalized stats block; readers access it with
`.get(..., default)`, embedded here as `Option` fields with explicit
defaults. -/

structure MpStats where
  totalVotes : ℕ
  attendance : ℚ
  votesFor : ℕ
  votesAgainst : ℕ
  votesAbstain : ℕ
  partyAlignmentRate : ℚ
deriving DecidableEq

structure MpDoc where
  memberUuid : Option String
  partyCode : Option String
  stats : Option MpStats
deriving DecidableEq

/-- Feature entries of a prediction payload can carry numbers or strings. -/
inductive FeatValue where
  | num (q : ℚ) : FeatValue
  | str (s : String) : FeatValue
deriving DecidableEq

structure PredictionResult where
  prediction : String
  confidence : ℚ
  modelVersion : String
  features : List (String × FeatValue)
deriving DecidableEq

/-- Insert a voting into a list sorted by `votingTime` descending
(equal keys keep their relative order). -/
def insertByTimeDesc (v : Voting) : List Voting → List Voting
  | [] => [v]
  | w :: ws =>
    if pyStrLt w.votingTime v.votingTime then v :: w :: ws else w :: insertByTimeDesc v ws

/-- Models `db.votings.find(...).sort("votingTime", -1)`. -/
def sortByTimeDesc (l : List Voting) : List Voting := l.foldr insertByTimeDesc []

/-- Models `mp.get("partyCode", "FR")`. -/
def mp_party_code (mp : MpDoc) : String := mp.partyCode.getD "FR"

/-- Models `mp.get("stats", \x7b\x7d).get("partyAlignmentRate", 85.0)`. -/
def mp_alignment_rate (mp : MpDoc) : ℚ := (mp.stats.map fun st => st.partyAlignmentRate).getD 85

/-- The decision list collected by the nested loops of `predict_party_line`
(and of the alignment branch of `_smart_baseline_predict`): decisions of the
given party's non-absent voters over the 200 most recent votings. -/
def party_votes_for (party_code : String) (votings : List Voting) : List String :=
  (((sortByTimeDesc votings).take 200).map fun v =>
    (v.voters.filter fun w =>
        (extract_party_code w.faction == party_code) && (w.decision != "ABSENT")).map
      fun w => w.decision).flatten

/-- Models `confidence = alignment_rate / 100.0 if alignment_rate else 0.85`
followed by `round(min(confidence, 0.99), 3)`. -/
def baseline_confidence (alignment_rate : ℚ) : ℚ :=
  pyRound (min (if alignment_rate ≠ 0 then alignment_rate / 100 else 85/100) (99/100)) 3

/-- Translation of `predict_party_line` from `app/prediction/baseline.py`. -/
def predict_party_line (mp : MpDoc) (votings : List Voting) : PredictionResult :=
  if party_votes_for (mp_party_code mp) votings = [] then
    { prediction := "FOR", confidence := 1/2, modelVersion := "baseline-v1",
      features := [("party_loyalty_rate", .num (mp_alignment_rate mp)),
                   ("data_available", .num 0)] }
  else
    { prediction := (mostCommon (party_votes_for (mp_party_code mp) votings)).getD "",
      confidence := baseline_confidence (mp_alignment_rate mp),
      modelVersion := "baseline-v1",
      features := [("party_loyalty_rate", .num (mp_alignment_rate mp)),
                   ("party_majority_decision",
                     .str ((mostCommon (party_votes_for (mp_party_code mp) votings)).getD "")),
                   ("sample_size",
                     .num (party_votes_for (mp_party_code mp) votings).length)] }

/-- Translation of `_smart_baseline_predict` from `app/prediction/model.py`:
party-line for party MPs; for FR members the alignment party is looked up in
`model_state.frAlignments` and its recent majority is predicted, falling back
to party-line when there is no alignment entry or no alignment-party votes. -/
def smart_baseline_predict (mp : MpDoc) (frAlignments : List (String × String))
    (votings : List Voting) : PredictionResult :=
  if mp_party_code mp ≠ "FR" then predict_party_line mp votings
  else
    match truthyStr (List.lookup (mp.memberUuid.getD "") frAlignments) with
    | none => predict_party_line mp votings
    | some align_party =>
      if party_votes_for align_party votings = [] then predict_party_line mp votings
      else
        { prediction := (mostCommon (party_votes_for align_party votings)).getD "",
          confidence := baseline_confidence (mp_alignment_rate mp),
          modelVersion := "hybrid-baseline-v1",
          features := [("alignment_party", .str align_party),
                       ("alignment_party_majority",
                         .str ((mostCommon (party_votes_for align_party votings)).getD "")),
                       ("party_loyalty_rate", .num (mp_alignment_rate mp))] }

/-- The model path of `predict` in `app/prediction/model.py`:
`confidence = float(probabilities[predicted_idx])` then `round(confidence, 4)`
with no clamping. -/
def predict_model_confidence (probabilities : List ℚ) (predicted_idx : ℕ) : ℚ :=
  pyRound (probabilities.getD predicted_idx 0) 4

/-! ### Rounding bound: `round(min(c, 0.99), 3) ≤ 0.99` -/

lemma roundHalfEven_le_of_le (x : ℚ) (n : ℤ) (h : x ≤ (n : ℚ)) : roundHalfEven x ≤ n := by
  have hf : ⌊x⌋ ≤ n := by
    have h2 := Int.floor_mono h
    simpa using h2
  have hmid : ¬(x - (⌊x⌋ : ℚ) < 1/2) → ⌊x⌋ < n := by
    intro hge
    rcases lt_or_eq_of_le hf with hlt | heq
    · exact hlt
    · exfalso
      have hx : x - (⌊x⌋ : ℚ) ≤ 0 := by
        rw [heq]
        linarith
      have : (1 : ℚ)/2 ≤ x - (⌊x⌋ : ℚ) := le_of_not_lt hge
      linarith
  unfold roundHalfEven
  split_ifs with h1 h2 h3
  · exact hf
  · exact hmid h1
  · exact hf
  · exact hmid h1

lemma pyRound3_le_99 (q : ℚ) (h : q ≤ 99/100) : pyRound q 3 ≤ 99/100 := by
  unfold pyRound
  have hpow : ((10 : ℚ) ^ (3 : ℕ)) = 1000 := by norm_num
  rw [hpow]
  have h1000 : q * 1000 ≤ (990 : ℚ) := by linarith
  have hr : roundHalfEven (q * 1000) ≤ 990 := by
    apply roundHalfEven_le_of_le
    exact_mod_cast h1000
  have hr' : (roundHalfEven (q * 1000) : ℚ) ≤ 990 := by exact_mod_cast hr
  calc (roundHalfEven (q * 1000) : ℚ) / 1000 ≤ 990 / 1000 := by
        apply div_le_div_of_nonneg_right hr' (by norm_num)
    _ = 99/100 := by norm_num

lemma baseline_confidence_le (r : ℚ) : baseline_confidence r ≤ 99/100 :=
  pyRound3_le_99 _ (min_le_right _ _)

/-! ### Model training finalization (`app/prediction/model.py`, `train_model`)

`train_model` fits scikit-learn / XGBoost models; the fitted estimators are
opaque here and their held-out accuracies enter as parameters.  What is
embedded is the pure selection and deployment logic of `train_model`:
the XGBoost escalation block (lines 92–148) and the promotion gate and
model-state update (lines 172–260). -/

structure AccuracyBlock where
  overall : Option ℚ
  byParty : List (String × ℚ)
  byVoteType : List (String × ℚ)
deriving DecidableEq

/-- The `model_state` singleton document (fields possibly absent on first run). -/
structure ModelStateDoc where
  version : Option String
  baselineAccuracy : Option ℚ
  mlModelVersion : Option String
  mlModelAccuracy : Option ℚ
  improvementOverBaseline : Option ℚ
  accuracy : Option AccuracyBlock
  trainingSize : Option ℕ
  trend : List (String × ℚ)
deriving DecidableEq

/-- The `$set` payload built by `train_model`: `Option` marks the fields that
are only written when the candidate model is deployed. -/
structure TrainUpdateFields where
  trainingSize : ℕ
  mlModelVersion : String
  mlModelAccuracy : ℚ
  version : Option String
  improvementOverBaseline : Option ℚ
  baselineAccuracy : Option ℚ
  accuracy : Option AccuracyBlock
deriving DecidableEq

structure FinalizeResult where
  modelDeployed : Bool
  servedVersion : String
  improvement : ℚ
  updateFields : TrainUpdateFields
deriving DecidableEq

/-- Models `baseline_state.get("baselineAccuracy", 0)` with `baseline_accuracy = 0.0`
when no `model_state` document exists. -/
def baseline_accuracy_of (baselineState : Option ModelStateDoc) : ℚ :=
  (baselineState.map fun st => st.baselineAccuracy.getD 0).getD 0

/-- Translation of the deployment decision and `$set` payload of `train_model`
(lines 172–260 of `app/prediction/model.py`). -/
def train_model_finalize (testAccuracy : ℚ) (version : String) (trainSize : ℕ)
    (byParty byVoteType : List (String × ℚ))
    (baselineState : Option ModelStateDoc) : FinalizeResult :=
  let baseline_accuracy := baseline_accuracy_of baselineState
  let improvement := if testAccuracy > 0 then pyRound (testAccuracy - baseline_accuracy) 1 else 0
  if testAccuracy > baseline_accuracy ∧ testAccuracy > 0 then
    { modelDeployed := true
      servedVersion := version
      improvement := improvement
      updateFields :=
        { trainingSize := trainSize
          mlModelVersion := version
          mlModelAccuracy := pyRound testAccuracy 1
          version := some version
          improvementOverBaseline := some improvement
          baselineAccuracy := some baseline_accuracy
          accuracy := some
            { overall := if testAccuracy > 0 then some (pyRound testAccuracy 1) else none
              byParty := byParty
              byVoteType := byVoteType } } }
  else
    { modelDeployed := false
      servedVersion := "baseline-v1"
      improvement := improvement
      updateFields :=
        { trainingSize := trainSize
          mlModelVersion := version
          mlModelAccuracy := pyRound testAccuracy 1
          version := none
          improvementOverBaseline := none
          baselineAccuracy := none
          accuracy := none } }

/-- Last `n` elements of a list (the `$slice: -100` of the trend push). -/
def takeLast (n : ℕ) (l : List (String × ℚ)) : List (String × ℚ) :=
  (l.reverse.take n).reverse

/-- Applying the `update_one` of `train_model` to a `model_state` document:
`$set` overwrites exactly the present fields, `$push` appends to the trend
keeping the last 100 entries. -/
def apply_model_state_update (st : ModelStateDoc) (u : TrainUpdateFields)
    (trendDate : String) : ModelStateDoc :=
  { version := match u.version with | some v => some v | none => st.version
    baselineAccuracy := match u.baselineAccuracy with | some b => some b | none => st.baselineAccuracy
    mlModelVersion := some u.mlModelVersion
    mlModelAccuracy := some u.mlModelAccuracy
    improvementOverBaseline :=
      match u.improvementOverBaseline with | some i => some i | none => st.improvementOverBaseline
    accuracy := match u.accuracy with | some a => some a | none => st.accuracy
    trainingSize := some u.trainingSize
    trend := takeLast 100 (st.trend ++ [(trendDate, u.mlModelAccuracy)]) }

/-- C1: when the candidate's held-out accuracy does not exceed the recorded
baseline accuracy (or is not positive), `train_model` deploys nothing: the
in-memory model is absent, the served version is the baseline version, the
persisted `version` field is left unchanged by the update, and the
candidate's version and accuracy are still recorded as
`mlModelVersion` / `mlModelAccuracy`. -/
theorem model_promotion_gate (testAccuracy : ℚ) (version : String) (trainSize : ℕ)
    (byParty byVoteType : List (String × ℚ)) (baselineState : Option ModelStateDoc)
    (h : testAccuracy ≤ baseline_accuracy_of baselineState ∨ testAccuracy ≤ 0) :
    (train_model_finalize testAccuracy version trainSize byParty byVoteType
        baselineState).modelDeployed = false
  ∧ (train_model_finalize testAccuracy version trainSize byParty byVoteType
        baselineState).servedVersion = "baseline-v1"
  ∧ (train_model_finalize testAccuracy version trainSize byParty byVoteType
        baselineState).updateFields.version = none
  ∧ (∀ (st : ModelStateDoc) (d : String),
      (apply_model_state_update st
        (train_model_finalize testAccuracy version trainSize byParty byVoteType
          baselineState).updateFields d).version = st.version)
  ∧ (train_model_finalize testAccuracy version trainSize byParty byVoteType
        baselineState).updateFields.mlModelVersion = version
  ∧ (train_model_finalize testAccuracy version trainSize byParty byVoteType
        baselineState).updateFields.mlModelAccuracy = pyRound testAccuracy 1 := by
  have hdec : ¬(testAccuracy > baseline_accuracy_of baselineState ∧ testAccuracy > 0) := by
    rcases h with h | h
    · rintro ⟨h1, -⟩
      exact absurd h (not_le.mpr h1)
    · rintro ⟨-, h2⟩
      exact absurd h (not_le.mpr h2)
  refine ⟨?_, ?_, ?_, ?_, ?_, ?_⟩ <;>
      simp only [train_model_finalize, if_neg hdec] <;>
      first
        | trivial
        | (intro st d; rfl)

def promotionGateBaseline : ModelStateDoc :=
  { version := some "baseline-v1", baselineAccuracy := some 85, mlModelVersion := none,
    mlModelAccuracy := none, improvementOverBaseline := none, accuracy := none,
    trainingSize := none, trend := [] }

/-- Witness for C1: a candidate at 80% against a recorded 85% baseline is not
deployed and leaves the persisted version untouched. -/
theorem model_promotion_gate_witness :
    (train_model_finalize 80 "logistic-v1" 500 [] []
        (some promotionGateBaseline)).modelDeployed = false
  ∧ (train_model_finalize 80 "logistic-v1" 500 [] []
        (some promotionGateBaseline)).servedVersion = "baseline-v1"
  ∧ (train_model_finalize 80 "logistic-v1" 500 [] []
        (some promotionGateBaseline)).updateFields.version = none
  ∧ (∀ (st : ModelStateDoc) (d : String),
      (apply_model_state_update st
        (train_model_finalize 80 "logistic-v1" 500 [] []
          (some promotionGateBaseline)).updateFields d).version = st.version)
  ∧ (train_model_finalize 80 "logistic-v1" 500 [] []
        (some promotionGateBaseline)).updateFields.mlModelVersion = "logistic-v1"
  ∧ (train_model_finalize 80 "logistic-v1" 500 [] []
        (some promotionGateBaseline)).updateFields.mlModelAccuracy = pyRound 80 1 :=
  model_promotion_gate 80 "logistic-v1" 500 [] [] (some promotionGateBaseline)
    (Or.inl (by norm_num [baseline_accuracy_of, promotionGateBaseline]))

/-! ### XGBoost escalation (`app/prediction/model.py`, lines 88–148) -/

structure SelectOutcome where
  xgbTried : Bool
  version : String
  testAccuracy : ℚ
deriving DecidableEq

/-- The quality threshold announced by the module docstring of
`app/prediction/model.py`: `If accuracy < 87, escalate to XGBoost`. -/
def XGB_ESCALATION_THRESHOLD : ℚ := 87

/-- Translation of the model-selection block of `train_model`: when the test
set is empty, accuracy stays 0 and the logistic model is kept; otherwise the
code comment reads `Always try XGBoost — with and without sample weights`,
and a variant replaces the current best only on strictly higher held-out
accuracy (weighted variant first, then natural). -/
def train_model_select (testLen : ℕ) (logisticAcc accWeighted accNatural : ℚ) : SelectOutcome :=
  if testLen = 0 then { xgbTried := false, version := "logistic-v1", testAccuracy := 0 }
  else
    let best1 : ℚ × String :=
      if accWeighted > logisticAcc then (accWeighted, "xgboost-v2-weighted")
      else (logisticAcc, "logistic-v1")
    let best2 : ℚ × String :=
      if accNatural > best1.1 then (accNatural, "xgboost-v2-natural") else best1
    { xgbTried := true, version := best2.2, testAccuracy := best2.1 }

/-- C5 counterexample: with a nonempty held-out set and a logistic accuracy of
99 — far above the 87 quality threshold — `train_model` still fits the
boosted-tree variants, contradicting accuracy-conditional escalation. -/
theorem xgb_escalation_counterexample :
    XGB_ESCALATION_THRESHOLD ≤ 99 ∧ (train_model_select 50 99 90 90).xgbTried = true := by
  constructor
  · norm_num [XGB_ESCALATION_THRESHOLD]
  · rfl

/-- C5 amended: the boosted-tree variants are tried on every run with a
nonempty held-out set, regardless of the linear model's accuracy; among the
logistic model and the two XGBoost variants, the selected accuracy is the
maximum, and the logistic model is kept exactly when neither variant strictly
beats it. -/
theorem xgb_escalation_amended (testLen : ℕ) (t w n : ℚ) (h : testLen ≠ 0) :
    (train_model_select testLen t w n).xgbTried = true
  ∧ (train_model_select testLen t w n).testAccuracy = max t (max w n)
  ∧ ((train_model_select testLen t w n).version = "logistic-v1" ↔ (w ≤ t ∧ n ≤ t)) := by
  unfold train_model_select
  rw [if_neg h]
  dsimp only
  split_ifs with hw hn hn
  · refine ⟨rfl, ?_, ?_⟩
    · rw [max_eq_right (le_of_lt hn), max_eq_right (le_of_lt (lt_trans hw hn))]
    · constructor
      · intro hv
        simp at hv
      · rintro ⟨hwle, -⟩
        exact absurd hw (not_lt.mpr hwle)
  · refine ⟨rfl, ?_, ?_⟩
    · rw [max_eq_left (not_lt.mp hn), max_eq_right (le_of_lt hw)]
    · constructor
      · intro hv
        simp at hv
      · rintro ⟨hwle, -⟩
        exact absurd hw (not_lt.mpr hwle)
  · refine ⟨rfl, ?_, ?_⟩
    · have hwt : w ≤ t := not_lt.mp hw
      rw [max_eq_right (le_trans hwt (le_of_lt hn)), max_eq_right (le_of_lt hn)]
    · constructor
      · intro hv
        simp at hv
      · rintro ⟨-, hnle⟩
        exact absurd hn (not_lt.mpr hnle)
  · refine ⟨rfl, ?_, ?_⟩
    · have hwt : w ≤ t := not_lt.mp hw
      have hnt : n ≤ t := not_lt.mp hn
      rw [max_eq_left (max_le hwt hnt)]
    · simp [not_lt.mp hw, not_lt.mp hn]

/-- Witness for C5 amended: concrete accuracies with the weighted variant winning. -/
theorem xgb_escalation_amended_witness :
    (train_model_select 10 80 85 84).xgbTried = true
  ∧ (train_model_select 10 80 85 84).testAccuracy = max 80 (max 85 84)
  ∧ ((train_model_select 10 80 85 84).version = "logistic-v1" ↔ ((85 : ℚ) ≤ 80 ∧ (84 : ℚ) ≤ 80)) :=
  xgb_escalation_amended 10 80 85 84 (by norm_num)

/-- C3 counterexample: on the trained-model path the confidence is the raw
class probability rounded to 4 decimals with no clamp, so a model emitting
probability 1 yields confidence 1, not a value at most 0.99. -/
theorem confidence_clamp_counterexample :
    predict_model_confidence [1, 0, 0] 0 = 1 ∧
      ¬ predict_model_confidence [1, 0, 0] 0 ≤ 99/100 := by
  have h : predict_model_confidence [1, 0, 0] 0 = 1 := by
    unfold predict_model_confidence pyRound roundHalfEven
    norm_num
  refine ⟨h, ?_⟩
  rw [h]
  norm_num

/-- C3 amended: the 0.99 confidence clamp holds on every baseline fallback
path (party-line, including its no-data default of 0.5, and the
alignment-party path), but not on the trained-model path. -/
theorem confidence_clamp_amended :
    (∀ (mp : MpDoc) (votings : List Voting),
      (predict_party_line mp votings).confidence ≤ 99/100)
  ∧ (∀ (mp : MpDoc) (frAlignments : List (String × String)) (votings : List Voting),
      (smart_baseline_predict mp frAlignments votings).confidence ≤ 99/100) := by
  have hpl : ∀ (mp : MpDoc) (votings : List Voting),
      (predict_party_line mp votings).confidence ≤ 99/100 := by
    intro mp votings
    unfold predict_party_line
    split_ifs
    · norm_num
    · exact baseline_confidence_le _
  refine ⟨hpl, ?_⟩
  intro mp frAlignments votings
  unfold smart_baseline_predict
  split_ifs
  · exact hpl mp votings
  · cases truthyStr (List.lookup (mp.memberUuid.getD "") frAlignments) with
    | none => exact hpl mp votings
    | some align_party =>
      dsimp only
      split_ifs
      · exact hpl mp votings
      · exact baseline_confidence_le _

/-- Witness for C9: the postconditions applied at concrete votings. -/
theorem party_cohesion_postconditions_witness :
    compute_party_cohesion
        { cohesionBaseVoting with voters := cohesionBaseVoting.voters ++ [⟨"m9", some "RE", "ABSENT"⟩] }
        "RE" = compute_party_cohesion cohesionBaseVoting "RE"
  ∧ compute_party_cohesion cohesionBaseVoting "RE" = 1
  ∧ compute_party_cohesion ⟨"v0", "2025-01-01", []⟩ "RE" = 1 :=
  ⟨party_cohesion_postconditions.1 cohesionBaseVoting "RE" ⟨"m9", some "RE", "ABSENT"⟩ (Or.inl rfl),
   party_cohesion_postconditions.2.1 cohesionBaseVoting "RE" "FOR" (by decide) (by decide),
   party_cohesion_postconditions.2.2.1 ⟨"v0", "2025-01-01", []⟩ "RE" (by decide)⟩

/-! ### Checkpointed per-year sync (`app/sync/riigikogu.py`)

`sync_votings`, `sync_stenograms` and `sync_drafts` share the same per-year
loop: for each year from 2023 through the current year, skip prior years
already checkpointed as completed, otherwise fetch the year and write a
checkpoint with `completed = (year < current_year)`, breaking early when the
database-size guard trips.  The loop is embedded once, with the year's fetch
and the size guard as parameters. -/

structure Checkpoint where
  year : ℕ
  recordCount : ℕ
  completed : Bool
  lastOffset : ℕ
deriving DecidableEq

/-- Translation of `_is_year_completed`. -/
def is_year_completed (cps : List Checkpoint) (year : ℕ) : Bool :=
  cps.any fun cp => cp.year == year && cp.completed

/-- Translation of `_save_checkpoint`: update the first checkpoint for the
year in place, else append one. -/
def save_checkpoint : List Checkpoint → ℕ → ℕ → Bool → List Checkpoint
  | [], year, count, completed => [⟨year, count, completed, 0⟩]
  | cp :: rest, year, count, completed =>
    if cp.year = year then ⟨year, count, completed, 0⟩ :: rest
    else cp :: save_checkpoint rest year count completed

/-- The per-year loop shared by the three sync types.  Returns the final
checkpoint list and the list of years actually fetched this run. -/
def sync_years (fetch : ℕ → ℕ) (sizeOk : ℕ → Bool) (currentYear : ℕ) :
    List ℕ → List Checkpoint → List Checkpoint × List ℕ
  | [], cps => (cps, [])
  | y :: ys, cps =>
    if y < currentYear ∧ is_year_completed cps y = true then
      sync_years fetch sizeOk currentYear ys cps
    else
      let cps2 := save_checkpoint cps y (fetch y) (decide (y < currentYear))
      if sizeOk y then
        let r := sync_years fetch sizeOk currentYear ys cps2
        (r.1, y :: r.2)
      else (cps2, [y])

/-- Models the year range `range(2023, current_year + 1)` and the loop body of
`sync_votings` / `sync_stenograms` / `sync_drafts`. -/
def sync_year_loop (fetch : ℕ → ℕ) (sizeOk : ℕ → Bool) (currentYear : ℕ)
    (initial : List Checkpoint) : List Checkpoint × List ℕ :=
  sync_years fetch sizeOk currentYear (List.range' 2023 (currentYear + 1 - 2023)) initial

lemma save_checkpoint_mem (cps : List Checkpoint) (year count : ℕ) (completed : Bool)
    (cp : Checkpoint) (h : cp ∈ save_checkpoint cps year count completed) :
    cp ∈ cps ∨ cp = ⟨year, count, completed, 0⟩ := by
  induction cps with
  | nil =>
    right
    simpa [save_checkpoint] using h
  | cons c rest ih =>
    simp only [save_checkpoint] at h
    by_cases hc : c.year = year
    · rw [if_pos hc] at h
      rcases List.mem_cons.mp h with h | h
      · right; exact h
      · left; exact List.mem_cons_of_mem _ h
    · rw [if_neg hc] at h
      rcases List.mem_cons.mp h with h | h
      · left; exact h ▸ List.mem_cons_self _ _
      · rcases ih h with h2 | h2
        · left; exact List.mem_cons_of_mem _ h2
        · right; exact h2

lemma is_year_completed_save_other (cps : List Checkpoint) (year count : ℕ)
    (completed : Bool) (z : ℕ) (hz : z ≠ year) :
    is_year_completed (save_checkpoint cps year count completed) z =
      is_year_completed cps z := by
  have hb : (year == z) = false := by
    simp only [beq_eq_false_iff_ne]
    exact Ne.symm hz
  induction cps with
  | nil =>
    simp [save_checkpoint, is_year_completed, hb]
  | cons c rest ih =>
    simp only [save_checkpoint]
    by_cases hc : c.year = year
    · simp [is_year_completed, List.any_cons, hc, hb]
    · simp only [if_neg hc, is_year_completed, List.any_cons]
      rw [show (save_checkpoint rest year count completed).any
            (fun cp => cp.year == z && cp.completed) =
          rest.any (fun cp => cp.year == z && cp.completed) from ih]

lemma sync_years_completed_inv (fetch : ℕ → ℕ) (sizeOk : ℕ → Bool) (currentYear : ℕ) :
    ∀ (years : List ℕ) (cps : List Checkpoint),
      (∀ cp ∈ cps, cp.completed = true → cp.year < currentYear) →
      ∀ cp ∈ (sync_years fetch sizeOk currentYear years cps).1,
        cp.completed = true → cp.year < currentYear := by
  intro years
  induction years with
  | nil => intro cps hinv; simpa [sync_years] using hinv
  | cons y ys ih =>
    intro cps hinv
    simp only [sync_years]
    have hinv2 : ∀ cp ∈ save_checkpoint cps y (fetch y) (decide (y < currentYear)),
        cp.completed = true → cp.year < currentYear := by
      intro cp hcp hcomp
      rcases save_checkpoint_mem _ _ _ _ _ hcp with h | h
      · exact hinv cp h hcomp
      · subst h
        simpa using of_decide_eq_true hcomp
    by_cases hc : y < currentYear ∧ is_year_completed cps y = true
    · rw [if_pos hc]
      exact ih cps hinv
    · rw [if_neg hc]
      by_cases hs : sizeOk y = true
      · simpa [hs] using ih _ hinv2
      · simpa [hs] using hinv2

lemma sync_years_skip (fetch : ℕ → ℕ) (sizeOk : ℕ → Bool) (currentYear y : ℕ) :
    ∀ (years : List ℕ) (cps : List Checkpoint),
      is_year_completed cps y = true → y < currentYear →
      y ∉ (sync_years fetch sizeOk currentYear years cps).2 := by
  intro years
  induction years with
  | nil => intro cps _ _; simp [sync_years]
  | cons z ys ih =>
    intro cps hcomp hy
    simp only [sync_years]
    by_cases hc : z < currentYear ∧ is_year_completed cps z = true
    · rw [if_pos hc]
      exact ih cps hcomp hy
    · rw [if_neg hc]
      have hzy : z ≠ y := by
        intro he
        subst he
        exact hc ⟨hy, hcomp⟩
      have hcomp2 : is_year_completed
          (save_checkpoint cps z (fetch z) (decide (z < currentYear))) y = true := by
        rw [is_year_completed_save_other cps z (fetch z) _ y (Ne.symm hzy)]
        exact hcomp
      by_cases hs : sizeOk z = true
      · simp only [if_pos hs]
        intro hmem
        rcases List.mem_cons.mp hmem with h | h
        · exact hzy h.symm
        · exact ih _ hcomp2 hy h
      · simp only [if_neg hs]
        intro hmem
        rcases List.mem_cons.mp hmem with h | h
        · exact hzy h.symm
        · cases h
    
lemma sync_years_current_fetched (fetch : ℕ → ℕ) (sizeOk : ℕ → Bool) (currentYear : ℕ)
    (hsize : ∀ x, sizeOk x = true) :
    ∀ (years : List ℕ) (cps : List Checkpoint), currentYear ∈ years →
      currentYear ∈ (sync_years fetch sizeOk currentYear years cps).2 := by
  intro years
  induction years with
  | nil => intro cps h; cases h
  | cons z ys ih =>
    intro cps hmem
    simp only [sync_years]
    by_cases hc : z < currentYear ∧ is_year_completed cps z = true
    · rw [if_pos hc]
      have hzc : z ≠ currentYear := Nat.ne_of_lt hc.1
      rcases List.mem_cons.mp hmem with h | h
      · exact absurd h.symm hzc
      · exact ih cps h
    · rw [if_neg hc]
      rw [if_pos (hsize z)]
      by_cases hz : z = currentYear
      · exact hz ▸ List.mem_cons_self _ _
      · rcases List.mem_cons.mp hmem with h | h
        · exact absurd h.symm hz
        · exact List.mem_cons_of_mem _ (ih _ h)

/-- C8: for the shared per-year sync loop, (i) every checkpoint written with
`completed = true` is for a year strictly before the current calendar year
(assuming the pre-existing checkpoints already satisfy this), (ii) a prior
year already checkpointed as completed is never fetched again, and (iii) the
current calendar year is always fetched regardless of prior completion state
(when the database-size guard does not pause the run). -/
theorem checkpoint_year_invariant (fetch : ℕ → ℕ) (sizeOk : ℕ → Bool) (currentYear : ℕ)
    (initial : List Checkpoint) :
    ((∀ cp ∈ initial, cp.completed = true → cp.year < currentYear) →
      ∀ cp ∈ (sync_year_loop fetch sizeOk currentYear initial).1,
        cp.completed = true → cp.year < currentYear)
  ∧ (∀ y, is_year_completed initial y = true → y < currentYear →
      y ∉ (sync_year_loop fetch sizeOk currentYear initial).2)
  ∧ ((∀ x, sizeOk x = true) → 2023 ≤ currentYear →
      currentYear ∈ (sync_year_loop fetch sizeOk currentYear initial).2) := by
  refine ⟨?_, ?_, ?_⟩
  · intro hinv
    exact sync_years_completed_inv fetch sizeOk currentYear _ initial hinv
  · intro y hcomp hy
    exact sync_years_skip fetch sizeOk currentYear y _ initial hcomp hy
  · intro hsize hcy
    apply sync_years_current_fetched fetch sizeOk currentYear hsize _ initial
    apply List.mem_range'_1.mpr
    omega

/-- Witness for C8 at a concrete run: current year 2026, year 2023 already
completed; 2023 is skipped, 2026 is fetched, and the 2024 checkpoint written
as completed is for a pre-current year. -/
theorem checkpoint_year_invariant_witness :
    (2023 ∉ (sync_year_loop (fun _ => 7) (fun _ => true) 2026 [⟨2023, 5, true, 0⟩]).2)
  ∧ (2026 ∈ (sync_year_loop (fun _ => 7) (fun _ => true) 2026 [⟨2023, 5, true, 0⟩]).2)
  ∧ 2024 < 2026 :=
  ⟨(checkpoint_year_invariant (fun _ => 7) (fun _ => true) 2026 [⟨2023, 5, true, 0⟩]).2.1
      2023 (by decide) (by decide),
   (checkpoint_year_invariant (fun _ => 7) (fun _ => true) 2026 [⟨2023, 5, true, 0⟩]).2.2
      (fun _ => rfl) (by decide),
   (checkpoint_year_invariant (fun _ => 7) (fun _ => true) 2026 [⟨2023, 5, true, 0⟩]).1
      (by decide) ⟨2024, 7, true, 0⟩ (by decide) rfl⟩

/-! ### MP statistics (`app/sync/riigikogu.py`, `compute_mp_stats`)

`compute_mp_stats` recomputes each MP's stats block from the **entire**
votings collection — its queries carry no date filter. -/

/-- The MP's own decisions across all votings (the unwound aggregation
matching `voters.memberUuid`). -/
def mp_votes_of (votings : List Voting) (uuid : String) : List String :=
  (votings.map fun v =>
    (v.voters.filter fun w => w.memberUuid == uuid).map fun w => w.decision).flatten

/-- The MP's decision within one voting: the loop assigns on every matching
voter without breaking, so the last match wins. -/
def mp_decision_in (v : Voting) (uuid : String) : Option String :=
  ((v.voters.filter fun w => w.memberUuid == uuid).map fun w => w.decision).getLast?

/-- One voting's contribution to (alignment_count, alignment_total). -/
def alignment_pair (v : Voting) (uuid party_code : String) : ℕ × ℕ :=
  match mp_decision_in v uuid with
  | none => (0, 0)
  | some d =>
    let pd := party_decisions_of v party_code
    if d ≠ "" ∧ d ≠ "ABSENT" ∧ pd ≠ [] then
      (if (mostCommon pd).getD "" = d then 1 else 0, 1)
    else (0, 0)

/-- The alignment loop of `compute_mp_stats` over the votings the MP
participated in. -/
def alignment_counts (votings : List Voting) (uuid party_code : String) : ℕ × ℕ :=
  ((votings.filter fun v => v.voters.any fun w => w.memberUuid == uuid).map fun v =>
    alignment_pair v uuid party_code).foldl (fun a b => (a.1 + b.1, a.2 + b.2)) (0, 0)

/-- The stats block written for one MP by `compute_mp_stats`, as a function of
the full votings collection (no date filter anywhere). -/
def compute_mp_stats_for (votings : List Voting) (uuid party_code : String) : MpStats :=
  let decisions := mp_votes_of votings uuid
  let total := decisions.length
  let votes_absent := countOf decisions "ABSENT"
  let attendance : ℚ := if total > 0 then (((total : ℚ) - votes_absent) / total) * 100 else 0
  let ac := alignment_counts votings uuid party_code
  let alignment_rate : ℚ := if ac.2 > 0 then ((ac.1 : ℚ) / ac.2) * 100 else 0
  { totalVotes := total
    attendance := pyRound attendance 1
    votesFor := countOf decisions "FOR"
    votesAgainst := countOf decisions "AGAINST"
    votesAbstain := countOf decisions "ABSTAIN"
    partyAlignmentRate := pyRound alignment_rate 1 }

/-- Translation of `compute_mp_stats`: rewrite every MP document's stats
block; MPs without a member uuid are skipped. -/
def compute_mp_stats (votings : List Voting) (mps : List MpDoc) : List MpDoc :=
  mps.map fun mp =>
    match truthyStr mp.memberUuid with
    | none => mp
    | some uuid =>
      { mp with stats := some (compute_mp_stats_for votings uuid (mp.partyCode.getD "FR")) }

/-! ### Training-data construction (`app/prediction/model.py`, `_build_training_data`) -/

/-- The feature-name list of `app/prediction/features.py` (`FEATURE_NAMES`),
used to order training and inference feature vectors. -/
def FEATURE_NAMES : List String :=
  [ "party_loyalty_rate",
    "bill_topic_similarity",
    "committee_relevance",
    "coalition_bill",
    "defection_rate_by_topic",
    "party_cohesion_on_similar",
    "days_since_last_defection",
    "mp_attendance_rate",
    "party_position_strength" ]

/-- The Mongo query of `_build_training_data`: `votingTime < before`,
`votingTime >= after`, both, or no filter (string comparison). -/
def voting_time_ok (before after : Option String) (t : String) : Bool :=
  match before, after with
  | some b, none => pyStrLt t b
  | none, some a => pyStrLe a t
  | some b, some a => pyStrLe a t && pyStrLt t b
  | none, none => true

/-- The votings feeding `_build_training_data`: filter, sort by `votingTime`
descending, limit 1000 (`MAX_VOTINGS`). -/
def select_votings (votings : List Voting) (before after : Option String) : List Voting :=
  (sortByTimeDesc (votings.filter fun v => voting_time_ok before after v.votingTime)).take 1000

/-- One entry of the `mp_stats` dictionary precomputed by
`_build_training_data` from the `mps` collection. -/
structure MpTrainStats where
  loyalty : ℚ
  defection_rate : ℚ
  attendance : ℚ
  partyCode : String
  personal_for_rate : ℚ
deriving DecidableEq

/-- The `mp_stats` dictionary of `_build_training_data` (keyed by member
uuid; a duplicated key keeps the last write, hence `lookupLast`). -/
def mp_train_stats (mps : List MpDoc) : List (String × MpTrainStats) :=
  mps.filterMap fun mp =>
    match truthyStr mp.memberUuid with
    | none => none
    | some uuid =>
      let loyalty := ((mp.stats.map fun st => st.partyAlignmentRate).getD 85) / 100
      let total_v_raw : ℕ := (mp.stats.map fun st => st.totalVotes).getD 1
      let total_v : ℕ := if total_v_raw = 0 then 1 else total_v_raw
      let votes_for : ℕ := (mp.stats.map fun st => st.votesFor).getD 0
      some (uuid,
        { loyalty := loyalty
          defection_rate := 1 - loyalty
          attendance := ((mp.stats.map fun st => st.attendance).getD 80) / 100
          partyCode := mp.partyCode.getD "FR"
          personal_for_rate := (votes_for : ℚ) / ((max total_v 1 : ℕ) : ℚ) })

/-- Python-dict lookup: the last binding of a key wins. -/
def lookupLast (l : List (String × MpTrainStats)) (k : String) : Option MpTrainStats :=
  List.lookup k l.reverse

/-- The `direction_map` of `_build_training_data` with its 0.0 default. -/
def direction_of (d : String) : ℚ :=
  if d = "FOR" then 1 else if d = "AGAINST" then -1 else 0

/-- The party keys of the per-voting `party_decisions` dictionary, in
insertion order (first non-absent voter of each party). -/
def party_keys (v : Voting) : List String :=
  firstOccs ((v.voters.filter fun w => w.decision != "ABSENT").map fun w =>
    extract_party_code w.faction)

/-- `party_majority.get(party_code, "FOR")`. -/
def party_majority_of (v : Voting) (p : String) : String :=
  if party_decisions_of v p = [] then "FOR" else (mostCommon (party_decisions_of v p)).getD ""

/-- `party_cohesion.get(party_code, 1.0)`. -/
def party_cohesion_feat (v : Voting) (p : String) : ℚ :=
  if party_decisions_of v p = [] then 1
  else (countOf (party_decisions_of v p) ((mostCommon (party_decisions_of v p)).getD "") : ℚ) /
    (party_decisions_of v p).length

/-- `party_margin.get(party_code, 0.5)` (the dict value coincides with the
cohesion; only the default differs). -/
def party_margin_feat (v : Voting) (p : String) : ℚ :=
  if party_decisions_of v p = [] then 1/2
  else (countOf (party_decisions_of v p) ((mostCommon (party_decisions_of v p)).getD "") : ℚ) /
    (party_decisions_of v p).length

/-- The opposition majority direction for a voting: decisions of all parties
outside the coalition, concatenated in dictionary order. -/
def opp_majority_direction (coalition : List String) (v : Voting) : ℚ :=
  let opp := ((party_keys v).filter fun p => decide (p ∉ coalition)).map
    (fun p => party_decisions_of v p)
  if opp.flatten = [] then 0
  else direction_of ((mostCommon opp.flatten).getD "")

/-- The per-sample feature dictionary built by `_build_training_data`. -/
def training_features (coalition : List String) (stats : List (String × MpTrainStats))
    (v : Voting) (w : Voter) : List (String × ℚ) :=
  let party_code := extract_party_code w.faction
  let info := lookupLast stats w.memberUuid
  [ ("party_loyalty_rate", (info.map fun i => i.loyalty).getD (85/100)),
    ("coalition_bill", if party_code ∈ coalition then 1 else 0),
    ("party_cohesion", party_cohesion_feat v party_code),
    ("mp_attendance_rate", (info.map fun i => i.attendance).getD (80/100)),
    ("mp_defection_rate", (info.map fun i => i.defection_rate).getD (15/100)),
    ("party_majority_direction", direction_of (party_majority_of v party_code)),
    ("party_majority_margin", party_margin_feat v party_code),
    ("is_independent", if party_code = "FR" then 1 else 0),
    ("mp_personal_for_rate", (info.map fun i => i.personal_for_rate).getD (70/100)),
    ("opposition_majority_direction", opp_majority_direction coalition v) ]

/-- The samples one voting contributes: `(feature_vec, label, party)` per
non-absent voter, with `feature_vec = [features.get(name, 0.0) for name in
FEATURE_NAMES]`. -/
def training_samples_for_voting (coalition : List String)
    (stats : List (String × MpTrainStats)) (v : Voting) :
    List (List ℚ × String × String) :=
  v.voters.filterMap fun w =>
    if w.decision = "ABSENT" then none
    else
      some (FEATURE_NAMES.map fun name =>
          (List.lookup name (training_features coalition stats v w)).getD 0,
        w.decision, extract_party_code w.faction)

/-- Translation of `_build_training_data`: returns `(X, y, parties)`. -/
def build_training_data (votings : List Voting) (mps : List MpDoc)
    (coalition : List String) (before after : Option String) :
    List (List ℚ) × List String × List String :=
  let selected := select_votings votings before after
  let stats := mp_train_stats mps
  let triples := (selected.map fun v => training_samples_for_voting coalition stats v).flatten
  (triples.map fun t => t.1, triples.map fun t => t.2.1, triples.map fun t => t.2.2)

/-- The composed training pipeline exercised on a retrain: `compute_mp_stats`
rewrites the MP stats from the full votings collection, then
`_build_training_data` builds the pre-cutoff feature matrix from them. -/
def training_pipeline (votings : List Voting) (mps : List MpDoc)
    (coalition : List String) (cutoff : String) : List (List ℚ) :=
  (build_training_data votings (compute_mp_stats votings mps) coalition (some cutoff) none).1

/-! ### Time-separation: counterexample worlds

Two votings collections agreeing on every pre-cutoff record and differing in
a single post-cutoff decision.  `compute_mp_stats` aggregates over the whole
collection, so the MP's stats — and through them the training features built
by `_build_training_data` — change. -/

def leakMp : MpDoc := ⟨some "m1", some "RE", none⟩

def leakV1 : Voting :=
  ⟨"v1", "2025-01-10T10:00:00", [⟨"m2", some "RE", "FOR"⟩, ⟨"m1", some "RE", "FOR"⟩]⟩

def leakV2A : Voting :=
  ⟨"v2", "2025-06-01T10:00:00", [⟨"m2", some "RE", "FOR"⟩, ⟨"m1", some "RE", "AGAINST"⟩]⟩

def leakV2B : Voting :=
  ⟨"v2", "2025-06-01T10:00:00", [⟨"m2", some "RE", "FOR"⟩, ⟨"m1", some "RE", "FOR"⟩]⟩

def infoA : MpTrainStats := ⟨1/2, 1/2, 1, "RE", 1/2⟩

def infoB : MpTrainStats := ⟨1, 0, 1, "RE", 1⟩

def vecM2 : List ℚ := [17/20, 0, 0, 0, 0, 0, 0, 4/5, 0]

def vecM1A : List ℚ := [1/2, 0, 0, 0, 0, 0, 0, 1, 0]

def vecM1B : List ℚ := [1, 0, 0, 0, 0, 0, 0, 1, 0]

lemma leak_stats_A : compute_mp_stats [leakV1, leakV2A] [leakMp] =
    [⟨some "m1", some "RE", some ⟨2, 100, 1, 1, 0, 50⟩⟩] := by
  have h0 : truthyStr (some "m1") = some "m1" := by decide
  have h1 : mp_votes_of [leakV1, leakV2A] "m1" = ["FOR", "AGAINST"] := by decide
  have h2 : alignment_counts [leakV1, leakV2A] "m1" "RE" = (1, 2) := by decide
  have hc1 : countOf ["FOR", "AGAINST"] "FOR" = 1 := by decide
  have hc2 : countOf ["FOR", "AGAINST"] "AGAINST" = 1 := by decide
  have hc3 : countOf ["FOR", "AGAINST"] "ABSTAIN" = 0 := by decide
  have hc4 : countOf ["FOR", "AGAINST"] "ABSENT" = 0 := by decide
  norm_num [compute_mp_stats, compute_mp_stats_for, leakMp, h0, h1, h2, hc1, hc2, hc3, hc4,
    pyRound, roundHalfEven, MpStats.mk.injEq, MpDoc.mk.injEq]

lemma leak_stats_B : compute_mp_stats [leakV1, leakV2B] [leakMp] =
    [⟨some "m1", some "RE", some ⟨2, 100, 2, 0, 0, 100⟩⟩] := by
  have h0 : truthyStr (some "m1") = some "m1" := by decide
  have h1 : mp_votes_of [leakV1, leakV2B] "m1" = ["FOR", "FOR"] := by decide
  have h2 : alignment_counts [leakV1, leakV2B] "m1" "RE" = (2, 2) := by decide
  have hc1 : countOf ["FOR", "FOR"] "FOR" = 2 := by decide
  have hc2 : countOf ["FOR", "FOR"] "AGAINST" = 0 := by decide
  have hc3 : countOf ["FOR", "FOR"] "ABSTAIN" = 0 := by decide
  have hc4 : countOf ["FOR", "FOR"] "ABSENT" = 0 := by decide
  norm_num [compute_mp_stats, compute_mp_stats_for, leakMp, h0, h1, h2, hc1, hc2, hc3, hc4,
    pyRound, roundHalfEven, MpStats.mk.injEq, MpDoc.mk.injEq]

lemma leak_info_A : mp_train_stats [⟨some "m1", some "RE", some ⟨2, 100, 1, 1, 0, 50⟩⟩] =
    [("m1", infoA)] := by
  have h0 : truthyStr (some "m1") = some "m1" := by decide
  norm_num [mp_train_stats, infoA, h0, MpTrainStats.mk.injEq, List.filterMap_cons,
    List.filterMap_nil]

lemma leak_info_B : mp_train_stats [⟨some "m1", some "RE", some ⟨2, 100, 2, 0, 0, 100⟩⟩] =
    [("m1", infoB)] := by
  have h0 : truthyStr (some "m1") = some "m1" := by decide
  norm_num [mp_train_stats, infoB, h0, MpTrainStats.mk.injEq, List.filterMap_cons,
    List.filterMap_nil]

lemma leak_cohesion : party_cohesion_feat leakV1 "RE" = 1 := by
  have hpd : party_decisions_of leakV1 "RE" = ["FOR", "FOR"] := by decide
  have hmc : mostCommon ["FOR", "FOR"] = some "FOR" := by decide
  have hck : countOf ["FOR", "FOR"] "FOR" = 2 := by decide
  norm_num [party_cohesion_feat, hpd, hmc, hck]
  all_goals decide

lemma leak_margin : party_margin_feat leakV1 "RE" = 1 := by
  have hpd : party_decisions_of leakV1 "RE" = ["FOR", "FOR"] := by decide
  have hmc : mostCommon ["FOR", "FOR"] = some "FOR" := by decide
  have hck : countOf ["FOR", "FOR"] "FOR" = 2 := by decide
  norm_num [party_margin_feat, hpd, hmc, hck]
  all_goals decide

lemma leak_opp : opp_majority_direction [] leakV1 = 1 := by
  have hpk : party_keys leakV1 = ["RE"] := by decide
  have hpd : party_decisions_of leakV1 "RE" = ["FOR", "FOR"] := by decide
  have hmc : mostCommon ["FOR", "FOR"] = some "FOR" := by decide
  norm_num [opp_majority_direction, hpk, hpd, hmc, direction_of]
  all_goals decide

lemma leak_features_m2 (info : MpTrainStats) :
    training_features [] [("m1", info)] leakV1 ⟨"m2", some "RE", "FOR"⟩ =
    [ ("party_loyalty_rate", 17/20), ("coalition_bill", 0), ("party_cohesion", 1),
      ("mp_attendance_rate", 4/5), ("mp_defection_rate", 3/20),
      ("party_majority_direction", 1), ("party_majority_margin", 1),
      ("is_independent", 0), ("mp_personal_for_rate", 7/10),
      ("opposition_majority_direction", 1) ] := by
  have hre : extract_party_code (some "RE") = "RE" := by decide
  have hlk : lookupLast [("m1", info)] "m2" = none := rfl
  have hmaj : party_majority_of leakV1 "RE" = "FOR" := by decide
  norm_num [training_features, hre, hlk, hmaj, leak_cohesion, leak_margin, leak_opp,
    direction_of]
  all_goals decide

lemma leak_features_m1 (info : MpTrainStats) :
    training_features [] [("m1", info)] leakV1 ⟨"m1", some "RE", "FOR"⟩ =
    [ ("party_loyalty_rate", info.loyalty), ("coalition_bill", 0), ("party_cohesion", 1),
      ("mp_attendance_rate", info.attendance), ("mp_defection_rate", info.defection_rate),
      ("party_majority_direction", 1), ("party_majority_margin", 1),
      ("is_independent", 0), ("mp_personal_for_rate", info.personal_for_rate),
      ("opposition_majority_direction", 1) ] := by
  have hre : extract_party_code (some "RE") = "RE" := by decide
  have hlk : lookupLast [("m1", info)] "m1" = some info := rfl
  have hmaj : party_majority_of leakV1 "RE" = "FOR" := by decide
  norm_num [training_features, hre, hlk, hmaj, leak_cohesion, leak_margin, leak_opp,
    direction_of]
  all_goals decide

lemma leak_samples (info : MpTrainStats) :
    training_samples_for_voting [] [("m1", info)] leakV1 =
      [([17/20, 0, 0, 0, 0, 0, 0, 4/5, 0], "FOR", "RE"),
       ([info.loyalty, 0, 0, 0, 0, 0, 0, info.attendance, 0], "FOR", "RE")] := by
  have hre : extract_party_code (some "RE") = "RE" := by decide
  have hvoters : leakV1.voters = [⟨"m2", some "RE", "FOR"⟩, ⟨"m1", some "RE", "FOR"⟩] := rfl
  have hlkm2 : lookupLast [("m1", info)] "m2" = none := rfl
  have hlkm1 : lookupLast [("m1", info)] "m1" = some info := rfl
  simp [training_samples_for_voting, List.filterMap_cons, List.filterMap_nil, hvoters,
    leak_features_m2, leak_features_m1, FEATURE_NAMES, List.lookup, hre, hlkm2, hlkm1]
  all_goals norm_num

lemma leak_pipeline_A :
    training_pipeline [leakV1, leakV2A] [leakMp] [] "2025-05-01" = [vecM2, vecM1A] := by
  have hsel : select_votings [leakV1, leakV2A] (some "2025-05-01") none = [leakV1] := by decide
  have ha1 : infoA.loyalty = 1/2 := rfl
  have ha2 : infoA.attendance = 1 := rfl
  unfold training_pipeline build_training_data
  rw [leak_stats_A, leak_info_A, hsel]
  norm_num [leak_samples, ha1, ha2, vecM2, vecM1A]

lemma leak_pipeline_B :
    training_pipeline [leakV1, leakV2B] [leakMp] [] "2025-05-01" = [vecM2, vecM1B] := by
  have hsel : select_votings [leakV1, leakV2B] (some "2025-05-01") none = [leakV1] := by decide
  have hb1 : infoB.loyalty = 1 := rfl
  have hb2 : infoB.attendance = 1 := rfl
  unfold training_pipeline build_training_data
  rw [leak_stats_B, leak_info_B, hsel]
  norm_num [leak_samples, hb1, hb2, vecM2, vecM1B]

/-- C2 counterexample: the two worlds agree on every voting with timestamp
before the cutoff (their pre-cutoff restrictions are equal) and differ only
in one decision inside a post-cutoff voting, yet the training feature
matrices built for the pre-cutoff window differ — the per-MP stats written by
`compute_mp_stats` carry post-cutoff information into training features. -/
theorem time_separation_counterexample :
    List.filter (fun v => pyStrLt v.votingTime "2025-05-01") [leakV1, leakV2A] =
      List.filter (fun v => pyStrLt v.votingTime "2025-05-01") [leakV1, leakV2B]
  ∧ training_pipeline [leakV1, leakV2A] [leakMp] [] "2025-05-01" ≠
      training_pipeline [leakV1, leakV2B] [leakMp] [] "2025-05-01" := by
  refine ⟨by decide, ?_⟩
  rw [leak_pipeline_A, leak_pipeline_B]
  intro h
  norm_num [vecM2, vecM1A, vecM1B] at h

lemma mem_of_mem_insertByTimeDesc (w v : Voting) :
    ∀ l, v ∈ insertByTimeDesc w l → v = w ∨ v ∈ l := by
  intro l
  induction l with
  | nil =>
    intro h
    left
    simpa [insertByTimeDesc] using h
  | cons x xs ih =>
    intro h
    simp only [insertByTimeDesc] at h
    by_cases hc : pyStrLt x.votingTime w.votingTime = true
    · rw [if_pos hc] at h
      rcases List.mem_cons.mp h with h | h
      · left; exact h
      · right; exact h
    · rw [if_neg hc] at h
      rcases List.mem_cons.mp h with h | h
      · right; exact h ▸ List.mem_cons_self _ _
      · rcases ih h with h2 | h2
        · left; exact h2
        · right; exact List.mem_cons_of_mem _ h2

lemma mem_of_mem_sortByTimeDesc (v : Voting) :
    ∀ l, v ∈ sortByTimeDesc l → v ∈ l := by
  intro l
  induction l with
  | nil => intro h; simpa [sortByTimeDesc] using h
  | cons x xs ih =>
    intro h
    have hx : sortByTimeDesc (x :: xs) = insertByTimeDesc x (sortByTimeDesc xs) := rfl
    rw [hx] at h
    rcases mem_of_mem_insertByTimeDesc x v _ h with h2 | h2
    · exact h2 ▸ List.mem_cons_self _ _
    · exact List.mem_cons_of_mem _ (ih h2)

lemma mem_select_votings (votings : List Voting) (before after : Option String) (v : Voting)
    (h : v ∈ select_votings votings before after) :
    voting_time_ok before after v.votingTime = true := by
  unfold select_votings at h
  have h2 := mem_of_mem_sortByTimeDesc v _ (List.mem_of_mem_take h)
  exact (List.mem_filter.mp h2).2

/-- C2 amended: the votings query itself is correctly time-separated — the
training matrix is unchanged when votings with timestamp at or past the
cutoff are dropped (labels and per-voting features use only pre-cutoff
votings), every voting selected for the held-out set has timestamp at or
past the cutoff, and every voting selected for training is strictly before
it.  The violated remainder of the claim — independence of the per-MP stats
features from post-cutoff data — is refuted separately. -/
theorem time_separation_amended :
    (∀ (votings : List Voting) (mps : List MpDoc) (coalition : List String) (c : String),
      build_training_data votings mps coalition (some c) none =
        build_training_data (votings.filter fun v => pyStrLt v.votingTime c)
          mps coalition (some c) none)
  ∧ (∀ (votings : List Voting) (c : String) (v : Voting),
      v ∈ select_votings votings none (some c) → pyStrLe c v.votingTime = true)
  ∧ (∀ (votings : List Voting) (c : String) (v : Voting),
      v ∈ select_votings votings (some c) none → pyStrLt v.votingTime c = true) := by
  refine ⟨?_, ?_, ?_⟩
  · intro votings mps coalition c
    have hsel : select_votings votings (some c) none =
        select_votings (votings.filter fun v => pyStrLt v.votingTime c) (some c) none := by
      unfold select_votings
      rw [List.filter_filter]
      have hfun : (fun v : Voting =>
          voting_time_ok (some c) none v.votingTime && pyStrLt v.votingTime c) =
          fun v : Voting => voting_time_ok (some c) none v.votingTime := by
        funext v
        have he : voting_time_ok (some c) none v.votingTime = pyStrLt v.votingTime c := rfl
        rw [he, Bool.and_self]
      rw [hfun]
    unfold build_training_data
    rw [hsel]
  · intro votings c v h
    exact mem_select_votings votings none (some c) v h
  · intro votings c v h
    exact mem_select_votings votings (some c) none v h

/-- Witness for C2 amended, at the concrete counterexample world. -/
theorem time_separation_amended_witness :
    build_training_data [leakV1, leakV2A] [leakMp] [] (some "2025-05-01") none =
      build_training_data
        ([leakV1, leakV2A].filter fun v => pyStrLt v.votingTime "2025-05-01")
        [leakMp] [] (some "2025-05-01") none
  ∧ pyStrLe "2025-05-01" leakV2A.votingTime = true
  ∧ pyStrLt leakV1.votingTime "2025-05-01" = true :=
  ⟨time_separation_amended.1 [leakV1, leakV2A] [leakMp] [] "2025-05-01",
   time_separation_amended.2.1 [leakV1, leakV2A] "2025-05-01" leakV2A (by decide),
   time_separation_amended.2.2 [leakV1, leakV2A] "2025-05-01" leakV1 (by decide)⟩

/-! ### The backtest and retrain entry points (`app/routers/backtest.py`,
`app/tasks/scheduler.py`)

Both import the name `reset_training_caches` from
`app.prediction.features`.  `featuresModuleAttrs` lists every module-level
attribute of `app/prediction/features.py` — its imports (`logging`,
`Counter`, `np`, `AsyncIOMotorDatabase`, `extract_party_code`), its module
globals (`logger`, `FEATURE_NAMES`), and its function definitions — so a
`from app.prediction.features import NAME` succeeds exactly when `NAME` is in
this list.  `_run_backtest` wraps its body in try/except/finally (the
exception is logged and the running flag reset), while `_retrain_model` has
no handler of its own. -/

def featuresModuleAttrs : List String :=
  [ "logging", "Counter", "np", "AsyncIOMotorDatabase", "extract_party_code",
    "logger", "FEATURE_NAMES",
    "compute_features", "compute_features_for_training",
    "_cosine_similarity", "_bill_topic_similarity", "_committee_relevance",
    "_coalition_bill", "_detect_coalition", "_defection_rate_by_topic",
    "_party_cohesion_on_similar", "_compute_party_cohesion",
    "_compute_party_position_strength", "_days_since_last_defection",
    "_historical_loyalty", "_party_position_strength",
    "_get_mp_and_party_decision" ]

structure BacktestRunOutcome where
  baselineBacktestRan : Bool
  trainModelRan : Bool
  raisedToCaller : Bool
  runningFlagAfter : Bool
deriving DecidableEq

/-- Control flow of `_run_backtest`: the baseline backtest runs first, then
the import of `reset_training_caches` is attempted inside the try block; on
failure the except clause swallows the exception and the finally clause
clears the running flag, so `train_model` is reached only when the import
resolves. -/
def run_backtest_sim : BacktestRunOutcome :=
  let importOk := featuresModuleAttrs.contains "reset_training_caches"
  { baselineBacktestRan := true
    trainModelRan := importOk
    raisedToCaller := false
    runningFlagAfter := false }

structure RetrainOutcome where
  trainModelRan : Bool
  raisedToCaller : Bool
deriving DecidableEq

/-- Control flow of `_retrain_model`: no try/except, so a failing name
resolution propagates to the scheduler and `train_model` is reached only
when the name resolves. -/
def retrain_model_sim : RetrainOutcome :=
  let importOk := featuresModuleAttrs.contains "reset_training_caches"
  { trainModelRan := importOk
    raisedToCaller := !importOk }

/-- C10: `reset_training_caches` is not an attribute of the features module,
so `_run_backtest` never reaches `train_model` (the ImportError is caught and
the running flag is reset, so the endpoint still reports status), and the
scheduled `_retrain_model` fails before training, raising to its caller —
the model cannot be trained through these entry points. -/
theorem reset_training_caches_import_missing :
    featuresModuleAttrs.contains "reset_training_caches" = false
  ∧ run_backtest_sim.baselineBacktestRan = true
  ∧ run_backtest_sim.trainModelRan = false
  ∧ run_backtest_sim.raisedToCaller = false
  ∧ run_backtest_sim.runningFlagAfter = false
  ∧ retrain_model_sim.trainModelRan = false
  ∧ retrain_model_sim.raisedToCaller = true := by decide
